import Mathlib

/-!
# Verification of the fastify-kick-start DI bridge and route plumbing

Shallow embedding of the repository's Smart DI resolver
(`src/plugins/di-bridge.plugin.ts`), the Awilix integration plugin's
per-request scope manager (`awilixPlugin` in `src/src/index.ts`),
the controller instantiation pipeline, the path-combination helpers
(`src/decorators/prefix.decorator.ts`) and the server builder
(`src/server/builder.ts`), together with theorems settling the frozen
claims about the natural-language specification.
-/

namespace KickStart

/-! ## Data model for the DI bridge

`src/plugins/di-bridge.plugin.ts`.  A container is an opaque object that
may expose a `cradle` property, a callable `get` member and a callable
`resolve` member.  We model a plain-object cradle as an association list
from names to opaque values (`Nat`), and the two lookup members as
functions returning `Except String Nat` (`error` models a thrown JS
exception).  `Option` on a member models JS absence / falsiness of that
member.  Keys passed to `get`/`resolve` are either class references or
string names; both are modelled as `String` keys. -/

abbrev Cradle := List (String × Nat)

/-- JS property access on a plain-object cradle: `cradle[name]` yields the
stored value, or `undefined` (here `none`) when the key is absent. -/
def cradleIndex (cr : Cradle) (name : String) : Option Nat :=
  (cr.find? (fun p => p.1 = name)).map (·.2)

structure DIContainer where
  cradle : Option Cradle
  get : Option (String → Except String Nat)
  resolve : Option (String → Except String Nat)

/-- The argument passed to a constructor by the resolver. -/
inductive CtorArg where
  /-- the value of `container.cradle` (possibly `undefined`) -/
  | cradleVal (cr : Option Cradle)
  /-- the raw container reference itself -/
  | rawContainer
  deriving DecidableEq, Repr

/-- Result of `SmartDIResolver.resolve`: either `new target(arg)` or the
value returned by a container-native lookup. -/
inductive ResolveResult where
  | ctor (cls : String) (arg : CtorArg)
  | fromContainer (v : Nat)
  deriving DecidableEq, Repr

/-- Embedding of `SmartDIResolver.detectContainerType`:
`cradle` truthy → `"awilix"`; callable `get` → `"inversify"`;
callable `resolve` → `"generic"`; else `"unknown"`. -/
def detectContainerType (c : DIContainer) : String :=
  if c.cradle.isSome then "awilix"
  else if c.get.isSome then "inversify"
  else if c.resolve.isSome then "generic"
  else "unknown"

/-- Embedding of the `SmartDIResolver` constructor:
`this.containerType = containerType || this.detectContainerType()`.
(JS `||`: an absent argument or the empty string is falsy.) -/
def resolverRetainedType (c : DIContainer) (containerType : Option String) : String :=
  match containerType with
  | some s => if s = "" then detectContainerType c else s
  | none => detectContainerType c

/-- Embedding of `diBridgePlugin`: the resolver is built with
`new SmartDIResolver(container, autoDetect ? undefined : containerType)`
where `autoDetect = true` by default.  This is the kind the attached
resolver retains for its lifetime. -/
def diBridgeRetainedType (c : DIContainer) (containerType : Option String)
    (autoDetect : Option Bool) : String :=
  resolverRetainedType c (if autoDetect.getD true then none else containerType)

/-- Embedding of `SmartDIResolver.resolve(target)`, the resolve-a-class operation.
The `switch (this.containerType)` of the source, case by case.  In the
`tsyringe` case the call `this.container.resolve(target)` sits inside the
`try`, so an absent `resolve` member (a thrown `TypeError`) also lands in
the `catch` and falls back to constructor injection. -/
def SmartDIResolver.resolve (c : DIContainer) (containerType : String)
    (target : String) : ResolveResult :=
  if containerType = "awilix" then
    .ctor target (.cradleVal c.cradle)
  else if containerType = "inversify" then
    match c.get with
    | some g =>
      match g target with
      | .ok v => .fromContainer v
      | .error _ => .ctor target .rawContainer
    | none => .ctor target .rawContainer
  else if containerType = "tsyringe" then
    match c.resolve with
    | some r =>
      match r target with
      | .ok v => .fromContainer v
      | .error _ => .ctor target .rawContainer
    | none => .ctor target .rawContainer
  else
    .ctor target .rawContainer

/-- Embedding of `SmartDIResolver.resolveByName(name)`.  `ok v` models a returned
value (`v = none` models a returned `undefined`), `error e` models a
thrown exception.  `awilix`: `this.container.cradle[name]` (a `TypeError`
when `cradle` is absent); `inversify`: `this.container.get!(name)` (a
`TypeError` when `get` is absent); every other kind:
`this.container.resolve(name)`.  No branch catches anything. -/
def SmartDIResolver.resolveByName (c : DIContainer) (containerType : String)
    (name : String) : Except String (Option Nat) :=
  if containerType = "awilix" then
    match c.cradle with
    | some cr => .ok (cradleIndex cr name)
    | none => .error "TypeError"
  else if containerType = "inversify" then
    match c.get with
    | some g => (g name).map some
    | none => .error "TypeError"
  else
    match c.resolve with
    | some r => (r name).map some
    | none => .error "TypeError"

/-! ## Concrete containers used in counterexamples and witnesses -/

/-- A container exposing a (truthy, empty) cradle and nothing else. -/
def c1cex : DIContainer := ⟨some [], none, none⟩

/-- A `resolve` member that succeeds with the value 42 for every key. -/
def c2cexResolve : String → Except String Nat := fun _ => .ok 42

/-- A container exposing only a callable `resolve` member. -/
def c2cex : DIContainer := ⟨none, none, some c2cexResolve⟩

/-- A container whose only member is a `get` that always throws. -/
def c3wContainer : DIContainer := ⟨none, some (fun _ => .error "boom"), none⟩

/-- A container whose `get` and `resolve` members always throw. -/
def c4wContainer : DIContainer :=
  ⟨none, some (fun _ => .error "nf"), some (fun _ => .error "nf")⟩

/-- An empty plain-object cradle. -/
def c8cradle : Cradle := []

/-- A cradle-style container with the empty cradle. -/
def c8cex : DIContainer := ⟨some c8cradle, none, none⟩

/-! ## Claims C1–C4 and C8 -/

/-- C1 counterexample: with the default auto-detect (absent, hence `true`),
an explicit container-kind override `"generic"` supplied to the DI bridge
registration is discarded — the retained kind for a cradle-bearing
container is `"awilix"`, not the override. -/
theorem c1_override_ignored_cex :
    diBridgeRetainedType c1cex (some "generic") none = "awilix" ∧
    diBridgeRetainedType c1cex (some "generic") none ≠ "generic" :=
  ⟨rfl, by decide⟩

/-- C1 (amended): an explicit, non-empty container-kind override supplied
to the DI bridge registration is retained — with no structural inspection,
i.e. independently of the container — exactly when auto-detect is
disabled; whenever auto-detect is enabled or left to its default of
`true`, any override is ignored and the retained kind is the result of
structural detection. -/
theorem c1_override_wins_iff_autodetect_off (c : DIContainer) (ty : String)
    (h : ty ≠ "") :
    diBridgeRetainedType c (some ty) (some false) = ty ∧
    (∀ (cty : Option String) (ad : Option Bool), ad.getD true = true →
      diBridgeRetainedType c cty ad = detectContainerType c) := by
  constructor
  · simp [diBridgeRetainedType, resolverRetainedType, h]
  · intro cty ad had
    simp [diBridgeRetainedType, resolverRetainedType, had]

/-- Witness instantiating `c1_override_wins_iff_autodetect_off` at the
cradle-bearing container and the override `"generic"`. -/
theorem c1_override_wins_iff_autodetect_off_witness :
    ("generic" : String) ≠ "" ∧
    (diBridgeRetainedType c1cex (some "generic") (some false) = "generic" ∧
    (∀ (cty : Option String) (ad : Option Bool), ad.getD true = true →
      diBridgeRetainedType c1cex cty ad = detectContainerType c1cex)) :=
  ⟨by decide, c1_override_wins_iff_autodetect_off c1cex "generic" (by decide)⟩

/-- C2 counterexample: a container exposing only a callable `resolve`
member (which succeeds, returning 42) is classified `"generic"` — not the
`"tsyringe"` kind that implements attempt-`resolve`-then-fallback — and
resolve-a-class on the auto-detected resolver does not return the value
`container.resolve` would have produced: `container.resolve` is never
attempted. -/
theorem c2_no_resolve_attempt_cex :
    detectContainerType c2cex = "generic" ∧
    detectContainerType c2cex ≠ "tsyringe" ∧
    c2cexResolve "T" = .ok 42 ∧
    SmartDIResolver.resolve c2cex (resolverRetainedType c2cex none) "T" ≠
      .fromContainer 42 :=
  ⟨rfl, by decide, rfl, by decide⟩

/-- C2 (amended): for every container exposing a callable `resolve` member
but no cradle and no callable `get`, with no explicit override,
classification yields the kind the code labels `"generic"`, and
resolve-a-class on that resolver constructs the class with the raw
container as sole argument without attempting `container.resolve`; the
attempt-`container.resolve`-then-fallback strategy belongs to the
explicitly selected `"tsyringe"` kind only. -/
theorem c2_resolve_only_is_generic (f : String → Except String Nat) (cls : String) :
    detectContainerType ⟨none, none, some f⟩ = "generic" ∧
    SmartDIResolver.resolve ⟨none, none, some f⟩
      (resolverRetainedType ⟨none, none, some f⟩ none) cls =
      .ctor cls .rawContainer ∧
    SmartDIResolver.resolve ⟨none, none, some f⟩ "tsyringe" cls =
      (match f cls with
        | .ok v => .fromContainer v
        | .error _ => .ctor cls .rawContainer) := by
  refine ⟨rfl, rfl, ?_⟩
  simp only [SmartDIResolver.resolve]
  rw [if_neg (by decide), if_neg (by decide), if_pos (by decide)]

/-- C3: on a container classified get-style (`"inversify"`) whose `get`
invocation throws for the requested class, resolve-a-class returns the
class constructed with the raw container as sole argument; the original
failure is swallowed, not re-raised. -/
theorem c3_get_failure_falls_back (c : DIContainer)
    (g : String → Except String Nat) (cls e : String)
    (hdet : detectContainerType c = "inversify")
    (hg : c.get = some g) (he : g cls = .error e) :
    SmartDIResolver.resolve c (detectContainerType c) cls =
      .ctor cls .rawContainer := by
  rw [hdet]
  simp [SmartDIResolver.resolve, hg, he]

/-- Witness instantiating `c3_get_failure_falls_back` at a container whose
`get` always throws `"boom"`. -/
theorem c3_get_failure_falls_back_witness :
    SmartDIResolver.resolve c3wContainer (detectContainerType c3wContainer)
      "Svc" = .ctor "Svc" .rawContainer :=
  c3_get_failure_falls_back c3wContainer (fun _ => .error "boom") "Svc" "boom"
    rfl rfl rfl

/-- C4: resolve-by-name never catches: on the get-style kind a throwing
`get` lookup propagates its failure unchanged, and on every kind other
than `"awilix"` and `"inversify"` (the `"tsyringe"`, `"generic"` and
default switch branches) a throwing `resolve` lookup propagates its
failure unchanged — no fallback strategy is attempted. -/
theorem c4_resolveByName_propagates (g r : String → Except String Nat)
    (cr : Option Cradle) (n e : String)
    (hg : g n = .error e) (hr : r n = .error e) :
    SmartDIResolver.resolveByName ⟨cr, some g, some r⟩ "inversify" n =
      .error e ∧
    ∀ ty : String, ty ≠ "awilix" → ty ≠ "inversify" →
      SmartDIResolver.resolveByName ⟨cr, some g, some r⟩ ty n = .error e := by
  constructor
  · simp [SmartDIResolver.resolveByName, hg, Except.map]
  · intro ty h1 h2
    simp [SmartDIResolver.resolveByName, h1, h2, hr, Except.map]

/-- Witness instantiating `c4_resolveByName_propagates` at a container
whose lookups always throw `"nf"`. -/
theorem c4_resolveByName_propagates_witness :
    SmartDIResolver.resolveByName c4wContainer "inversify" "svc" =
      .error "nf" ∧
    ∀ ty : String, ty ≠ "awilix" → ty ≠ "inversify" →
      SmartDIResolver.resolveByName c4wContainer ty "svc" = .error "nf" :=
  c4_resolveByName_propagates (fun _ => .error "nf") (fun _ => .error "nf")
    none "svc" "nf" rfl rfl

/-- C8 counterexample: on a cradle-style container whose (plain-object)
cradle lacks the identifier `"x"`, resolve-by-name returns the indexing
result `undefined` (`ok none`) — a silently returned empty value, not an
error raised to the caller. -/
theorem c8_absence_not_error_cex :
    detectContainerType c8cex = "awilix" ∧
    cradleIndex c8cradle "x" = none ∧
    SmartDIResolver.resolveByName c8cex (detectContainerType c8cex) "x" =
      .ok none :=
  ⟨rfl, rfl, rfl⟩

/-- C8 (amended): on every cradle-style-classified container,
resolve-by-name indexes directly into the cradle by the identifier with no
fallback to any other member; a missing identifier yields the cradle's
indexing result — `undefined` for a plain-object cradle — rather than an
error raised by the resolver itself. -/
theorem c8_cradle_index_no_fallback (cr : Cradle)
    (g r : Option (String → Except String Nat)) (n : String) :
    SmartDIResolver.resolveByName ⟨some cr, g, r⟩
      (detectContainerType ⟨some cr, g, r⟩) n = .ok (cradleIndex cr n) := by
  simp [SmartDIResolver.resolveByName, detectContainerType]

/-! ## Scope Manager (claims C5 and C6)

Embedding of `awilixPlugin` (`src/src/index.ts`): per-request scope
management over a `scopeMap` keyed by the request.  With request scoping
enabled the plugin creates a scope eagerly in an `onRequest` hook and
decorates requests with a `diScope` getter that returns the mapped scope,
creating one only when the map has none; the `onResponse` hook
(registered only when dispose-on-response is enabled) and the
unconditionally registered `onError` hook each dispose the mapped scope
if present, deleting it from the map only when disposal succeeded and
logging a warning on a failed disposal (which therefore stays mapped and
is retried by the next hook). -/

/-- The `awilixPlugin` option switches with their defaults, as
destructured at the top of the plugin (`disposeOnResponse = true`,
`disposeOnClose = true`, `enableRequestScoping = true`). -/
structure AwilixOptions where
  disposeOnResponse : Bool := true
  disposeOnClose : Bool := true
  enableRequestScoping : Bool := true

/-- Per-request bookkeeping: the `scopeMap` entry for this request (a
scope identified by a numeric id), and counters for the invocations of
the scope-creation primitive (`container.createScope`), the disposal
primitive (`scope.dispose`) and the logged disposal failures. -/
structure ScopeState where
  scopeEntry : Option Nat := none
  createCalls : Nat := 0
  disposeCalls : Nat := 0
  loggedFailures : Nat := 0
  deriving DecidableEq, Repr

/-- The state of a request before any hook ran. -/
def initScopeState : ScopeState := {}

/-- One call of `container.createScope()`: returns a fresh scope,
identified by the running creation count. -/
def createScopePrim (s : ScopeState) : ScopeState × Nat :=
  ({ s with createCalls := s.createCalls + 1 }, s.createCalls)

/-- Embedding of the `onRequest` hook (added only with scoping enabled):
eagerly create a scope and store it in the map for this request. -/
def onRequestHook (opts : AwilixOptions) (s : ScopeState) : ScopeState :=
  if opts.enableRequestScoping then
    let c := createScopePrim s
    { c.1 with scopeEntry := some c.2 }
  else s

/-- Embedding of the `diScope` getter (decorated only with scoping
enabled): return the mapped scope, creating and storing one only when the
map has none; with scoping disabled the property is absent
(`undefined`, here `none`). -/
def diScopeGet (opts : AwilixOptions) (s : ScopeState) :
    ScopeState × Option Nat :=
  if opts.enableRequestScoping then
    match s.scopeEntry with
    | some id => (s, some id)
    | none =>
      let c := createScopePrim s
      ({ c.1 with scopeEntry := some c.2 }, some c.2)
  else (s, none)

/-- One disposal attempt over the scope map — the shared body of the
`onResponse` and `onError` hooks: if a scope is mapped, invoke its
`dispose`; on success delete it from the map, on failure (`ok = false`)
log a warning and leave it mapped; with no mapped scope do nothing. -/
def disposeAttempt (ok : Bool) (s : ScopeState) : ScopeState :=
  match s.scopeEntry with
  | some _ =>
    if ok then
      { s with disposeCalls := s.disposeCalls + 1, scopeEntry := none }
    else
      { s with
        disposeCalls := s.disposeCalls + 1
        loggedFailures := s.loggedFailures + 1 }
  | none => s

/-- A request-completion hook invocation: `onError` is registered
unconditionally, `onResponse` only when dispose-on-response is enabled.
Each event carries whether `scope.dispose()` would succeed there. -/
inductive CompletionEvent where
  | onError (disposeOk : Bool)
  | onResponse (disposeOk : Bool)
  deriving DecidableEq, Repr

/-- Run one completion hook against the request's scope map. -/
def runCompletion (opts : AwilixOptions) (s : ScopeState) :
    CompletionEvent → ScopeState
  | .onError ok => disposeAttempt ok s
  | .onResponse ok =>
    if opts.disposeOnResponse then disposeAttempt ok s else s

/-- The handler phase: a number of `diScope` accesses, collecting what
each access returned. -/
def runHandler (opts : AwilixOptions) :
    Nat → ScopeState → ScopeState × List (Option Nat)
  | 0, s => (s, [])
  | k + 1, s =>
    let a := diScopeGet opts s
    let rest := runHandler opts k a.1
    (rest.1, a.2 :: rest.2)

/-- A whole request in hook order: `onRequest`, the handler's scope
accesses, then the completion hooks that fired. -/
def runRequest (opts : AwilixOptions) (accesses : Nat)
    (events : List CompletionEvent) : ScopeState × List (Option Nat) :=
  let h := runHandler opts accesses (onRequestHook opts initScopeState)
  (events.foldl (runCompletion opts) h.1, h.2)

/-- The dispose-success flags of a list of completion events. -/
def eventOks (events : List CompletionEvent) : List Bool :=
  events.map fun e =>
    match e with
    | .onError ok => ok
    | .onResponse ok => ok

/-- How many disposal attempts a mapped scope sees along a flag list:
every attempt up to and including the first success (all of them when
none succeeds). -/
def attemptsCount : List Bool → Nat
  | [] => 0
  | ok :: rest => if ok then 1 else attemptsCount rest + 1

/-- How many of those attempts fail (and are logged). -/
def failuresCount : List Bool → Nat
  | [] => 0
  | ok :: rest => if ok then 0 else failuresCount rest + 1

/-- Whether some attempt succeeds. -/
def hasTrue : List Bool → Bool
  | [] => false
  | ok :: rest => ok || hasTrue rest

theorem diScopeGet_stable (opts : AwilixOptions) (s : ScopeState) (id : Nat)
    (hen : opts.enableRequestScoping = true) (h : s.scopeEntry = some id) :
    diScopeGet opts s = (s, some id) := by
  simp [diScopeGet, hen, h]

theorem runHandler_stable (opts : AwilixOptions) (k : Nat) (s : ScopeState)
    (id : Nat) (hen : opts.enableRequestScoping = true)
    (h : s.scopeEntry = some id) :
    runHandler opts k s = (s, List.replicate k (some id)) := by
  induction k with
  | zero => simp [runHandler]
  | succ k ih =>
    simp [runHandler, diScopeGet_stable opts s id hen h, ih,
      List.replicate_succ]

theorem runHandler_disabled (opts : AwilixOptions) (k : Nat) (s : ScopeState)
    (hen : opts.enableRequestScoping = false) :
    runHandler opts k s = (s, List.replicate k none) := by
  induction k with
  | zero => simp [runHandler]
  | succ k ih => simp [runHandler, diScopeGet, hen, ih, List.replicate_succ]

theorem runCompletion_noentry (opts : AwilixOptions) (e : CompletionEvent)
    (s : ScopeState) (h : s.scopeEntry = none) :
    runCompletion opts s e = s := by
  cases e with
  | onError ok => simp [runCompletion, disposeAttempt, h]
  | onResponse ok =>
    unfold runCompletion
    by_cases hd : opts.disposeOnResponse <;> simp [hd, disposeAttempt, h]

theorem foldl_runCompletion_noentry (opts : AwilixOptions)
    (events : List CompletionEvent) (s : ScopeState)
    (h : s.scopeEntry = none) :
    events.foldl (runCompletion opts) s = s := by
  induction events with
  | nil => rfl
  | cons e rest ih => simp [runCompletion_noentry opts e s h, ih]

theorem runCompletion_createCalls (opts : AwilixOptions)
    (e : CompletionEvent) (s : ScopeState) :
    (runCompletion opts s e).createCalls = s.createCalls := by
  have hda : ∀ ok : Bool, (disposeAttempt ok s).createCalls = s.createCalls := by
    intro ok
    unfold disposeAttempt
    rcases s.scopeEntry with _ | id <;> cases ok <;> simp
  cases e with
  | onError ok => exact hda ok
  | onResponse ok =>
    unfold runCompletion
    by_cases hd : opts.disposeOnResponse <;> simp [hd, hda ok]

theorem foldl_runCompletion_createCalls (opts : AwilixOptions)
    (events : List CompletionEvent) :
    ∀ s : ScopeState,
      (events.foldl (runCompletion opts) s).createCalls = s.createCalls := by
  induction events with
  | nil => intro s; rfl
  | cons e rest ih =>
    intro s
    rw [List.foldl_cons, ih (runCompletion opts s e),
      runCompletion_createCalls]

theorem runCompletion_eq_dispose (opts : AwilixOptions)
    (hd : opts.disposeOnResponse = true) (e : CompletionEvent)
    (s : ScopeState) :
    runCompletion opts s e =
      disposeAttempt
        (match e with
          | .onError ok => ok
          | .onResponse ok => ok) s := by
  cases e with
  | onError ok => rfl
  | onResponse ok => simp [runCompletion, hd]

theorem foldl_dispose_from_entry (opts : AwilixOptions)
    (hd : opts.disposeOnResponse = true) (events : List CompletionEvent) :
    ∀ s : ScopeState, s.scopeEntry = some 0 →
      events.foldl (runCompletion opts) s =
        { scopeEntry := if hasTrue (eventOks events) then none else some 0,
          createCalls := s.createCalls,
          disposeCalls := s.disposeCalls + attemptsCount (eventOks events),
          loggedFailures :=
            s.loggedFailures + failuresCount (eventOks events) } := by
  induction events with
  | nil =>
    intro s h
    rcases s with ⟨e, c, d, f⟩
    simp only [List.foldl_nil, eventOks, List.map_nil, hasTrue,
      attemptsCount, failuresCount]
    simp at h
    simp [h]
  | cons ev rest ih =>
    intro s h
    have hok : eventOks (ev :: rest) =
        (match ev with
          | .onError ok => ok
          | .onResponse ok => ok) :: eventOks rest := by
      cases ev <;> simp [eventOks]
    rw [List.foldl_cons, runCompletion_eq_dispose opts hd ev s, hok]
    rcases hb : (match ev with
      | CompletionEvent.onError ok => ok
      | CompletionEvent.onResponse ok => ok) with _ | _
    · rw [hb]
      have hstep : disposeAttempt false s =
          { s with
            disposeCalls := s.disposeCalls + 1
            loggedFailures := s.loggedFailures + 1 } := by
        simp [disposeAttempt, h]
      rw [hstep, ih _ (by simp [h])]
      simp [hasTrue, attemptsCount, failuresCount]
      omega
    · rw [hb]
      have hstep : disposeAttempt true s =
          { s with disposeCalls := s.disposeCalls + 1, scopeEntry := none } := by
        simp [disposeAttempt, h]
      rw [hstep, foldl_runCompletion_noentry opts rest _ rfl]
      simp [hasTrue, attemptsCount, failuresCount, h]

/-- C5: with request scoping enabled, the scope-creation primitive is
invoked exactly once for a request — the `onRequest` hook creates the
scope eagerly, and every `diScope` access (first and later) returns that
identical mapped scope without creating another; completion hooks create
nothing. -/
theorem runRequest_fst (opts : AwilixOptions) (k : Nat)
    (events : List CompletionEvent) :
    (runRequest opts k events).1 =
      events.foldl (runCompletion opts)
        (runHandler opts k (onRequestHook opts initScopeState)).1 := rfl

theorem runRequest_snd (opts : AwilixOptions) (k : Nat)
    (events : List CompletionEvent) :
    (runRequest opts k events).2 =
      (runHandler opts k (onRequestHook opts initScopeState)).2 := rfl

theorem c5_scope_created_once (opts : AwilixOptions) (k : Nat)
    (events : List CompletionEvent)
    (hen : opts.enableRequestScoping = true) :
    (runRequest opts k events).1.createCalls = 1 ∧
    (runRequest opts k events).2 = List.replicate k (some 0) := by
  have h0 : onRequestHook opts initScopeState =
      { scopeEntry := some 0, createCalls := 1 } := by
    simp [onRequestHook, hen, createScopePrim, initScopeState]
  have h1 := runHandler_stable opts k
    ({ scopeEntry := some 0, createCalls := 1 } : ScopeState) 0 hen rfl
  have h1a : (runHandler opts k
      ({ scopeEntry := some 0, createCalls := 1 } : ScopeState)).1 =
      { scopeEntry := some 0, createCalls := 1 } := by rw [h1]
  have h1b : (runHandler opts k
      ({ scopeEntry := some 0, createCalls := 1 } : ScopeState)).2 =
      List.replicate k (some 0) := by rw [h1]
  rw [runRequest_fst, runRequest_snd, h0, h1a, h1b,
    foldl_runCompletion_createCalls]
  exact ⟨rfl, rfl⟩

/-- Witness instantiating `c5_scope_created_once` at the default options,
two accesses and a successful response disposal. -/
theorem c5_scope_created_once_witness :
    ({} : AwilixOptions).enableRequestScoping = true ∧
    ((runRequest {} 2 [CompletionEvent.onResponse true]).1.createCalls = 1 ∧
      (runRequest {} 2 [CompletionEvent.onResponse true]).2 =
        List.replicate 2 (some 0)) :=
  ⟨rfl, c5_scope_created_once {} 2 [CompletionEvent.onResponse true] rfl⟩

/-- C6 counterexample: with the default options, an erroring request
whose first disposal attempt fails sees two disposal calls — the
unconditional `onError` hook disposes and fails, the scope stays mapped,
and the `onResponse` hook retries — refuting "exactly one scope-disposal
call, triggered by whichever completion event fires first"; moreover a
request that never accesses the scope accessor still gets a scope created
(eager `onRequest` hook) and one disposal call, refuting the
zero-disposal reading for scoping-enabled requests with no accesses. -/
theorem c6_disposal_cex :
    (runRequest {} 0 [CompletionEvent.onError false,
      CompletionEvent.onResponse true]).1.disposeCalls = 2 ∧
    (runRequest {} 0 [CompletionEvent.onResponse true]).1.createCalls = 1 ∧
    (runRequest {} 0 [CompletionEvent.onResponse true]).1.disposeCalls = 1 :=
  ⟨rfl, rfl, rfl⟩

/-- C6 (amended): with dispose-on-response enabled, every completion hook
(error or response) attempts disposal while the request's scope is still
mapped: the disposal-call count equals the number of attempts up to and
including the first successful one (so a reliable dispose is called
exactly once, by whichever hook fires first), each failed attempt is
caught and logged — one log entry per failure, nothing else — and leaves
the scope mapped for the next hook to retry, a successful attempt unmaps
it; with scoping disabled no scope exists and no disposal call is ever
issued.  With scoping enabled the scope exists (created eagerly) even for
requests that never access the accessor, so those are disposed too. -/
theorem c6_disposal_retry (opts : AwilixOptions) (k : Nat)
    (events : List CompletionEvent)
    (hd : opts.disposeOnResponse = true) :
    (runRequest opts k events).1.disposeCalls =
      (if opts.enableRequestScoping then attemptsCount (eventOks events)
        else 0) ∧
    (runRequest opts k events).1.loggedFailures =
      (if opts.enableRequestScoping then failuresCount (eventOks events)
        else 0) ∧
    (runRequest opts k events).1.scopeEntry =
      (if opts.enableRequestScoping && !hasTrue (eventOks events)
        then some 0 else none) := by
  cases hen : opts.enableRequestScoping with
  | false =>
    have h0 : onRequestHook opts initScopeState = initScopeState := by
      simp [onRequestHook, hen]
    have h1a : (runHandler opts k initScopeState).1 = initScopeState := by
      rw [runHandler_disabled opts k initScopeState hen]
    rw [runRequest_fst, h0, h1a,
      foldl_runCompletion_noentry opts events initScopeState rfl]
    simp [initScopeState]
  | true =>
    have h0 : onRequestHook opts initScopeState =
        { scopeEntry := some 0, createCalls := 1 } := by
      simp [onRequestHook, hen, createScopePrim, initScopeState]
    have h1a : (runHandler opts k
        ({ scopeEntry := some 0, createCalls := 1 } : ScopeState)).1 =
        { scopeEntry := some 0, createCalls := 1 } := by
      rw [runHandler_stable opts k
        ({ scopeEntry := some 0, createCalls := 1 } : ScopeState) 0 hen rfl]
    rw [runRequest_fst, h0, h1a,
      foldl_dispose_from_entry opts hd events _ rfl]
    simp
    cases hht : hasTrue (eventOks events) <;> simp [hht]

/-- Witness instantiating `c6_disposal_retry` at the default options, one
access and a failing-then-successful pair of completion hooks. -/
theorem c6_disposal_retry_witness :
    ({} : AwilixOptions).disposeOnResponse = true ∧
    ((runRequest {} 1 [CompletionEvent.onError false,
        CompletionEvent.onResponse true]).1.disposeCalls =
      (if ({} : AwilixOptions).enableRequestScoping then
        attemptsCount (eventOks [CompletionEvent.onError false,
          CompletionEvent.onResponse true]) else 0) ∧
    (runRequest {} 1 [CompletionEvent.onError false,
        CompletionEvent.onResponse true]).1.loggedFailures =
      (if ({} : AwilixOptions).enableRequestScoping then
        failuresCount (eventOks [CompletionEvent.onError false,
          CompletionEvent.onResponse true]) else 0) ∧
    (runRequest {} 1 [CompletionEvent.onError false,
        CompletionEvent.onResponse true]).1.scopeEntry =
      (if ({} : AwilixOptions).enableRequestScoping &&
          !hasTrue (eventOks [CompletionEvent.onError false,
            CompletionEvent.onResponse true])
        then some 0 else none)) :=
  ⟨rfl, c6_disposal_retry {} 1
    [CompletionEvent.onError false, CompletionEvent.onResponse true] rfl⟩

/-! ## Controller instantiation pipeline (claim C7)

Embedding of `controllerPlugin` (the six-way instance-creation chain of
the controller plugin, `src/unnamed/part_007` lines 44–77). -/

/-- The six instantiation paths, in the order the source checks them. -/
inductive InstPath where
  | smartResolver
  | customResolver
  | legacyContainer
  | cradleArg
  | genericContainer
  | noArgs
  deriving DecidableEq, Repr

/-- What the controller plugin can see when creating an instance:
whether `fastify.diResolver` is attached, whether the legacy
`dependencyInjection.resolver` / `dependencyInjection.container` options
were supplied, and whether `fastify.diContainer` is attached
(`some b`, with `b` the truthiness of its `cradle` property). -/
structure InstCtx where
  diResolver : Bool
  optResolver : Bool
  optContainer : Bool
  diContainer : Option Bool
  deriving DecidableEq, Repr

/-- Embedding of the instance-creation `if`/`else if` chain of
`controllerPlugin`. -/
def selectPath (ctx : InstCtx) : InstPath :=
  if ctx.diResolver then .smartResolver
  else if ctx.optResolver then .customResolver
  else if ctx.optContainer then .legacyContainer
  else if ctx.diContainer = some true then .cradleArg
  else if ctx.diContainer.isSome then .genericContainer
  else .noArgs

/-- Stated from the spec's words: the descending priority order of the
six instantiation paths. -/
def instPriority : List InstPath :=
  [.smartResolver, .customResolver, .legacyContainer, .cradleArg,
    .genericContainer, .noArgs]

/-- Stated from the spec's words: whether an instantiation path is
applicable in a given context. -/
def applicable (ctx : InstCtx) : InstPath → Bool
  | .smartResolver => ctx.diResolver
  | .customResolver => ctx.optResolver
  | .legacyContainer => ctx.optContainer
  | .cradleArg => match ctx.diContainer with | some b => b | none => false
  | .genericContainer => ctx.diContainer.isSome
  | .noArgs => true

/-- Embedding of the controller loop of `controllerPlugin`: walk the
registered controller classes, throw on the first one not decorated with
`@Controller`, otherwise create exactly one instance for it via the
selected path. -/
def controllerPlugin (ctx : InstCtx) (decorated : String → Bool) :
    List String → Except String (List (String × InstPath))
  | [] => .ok []
  | cls :: rest =>
    if decorated cls then
      match controllerPlugin ctx decorated rest with
      | .ok l => .ok ((cls, selectPath ctx) :: l)
      | .error e => .error e
    else .error (cls ++ " is not decorated with @Controller")

/-- C7: the instance-creation chain selects exactly the first applicable
path in the spec's descending priority order (Smart Resolver, legacy
custom resolver, legacy generic container, attached cradle, attached
non-cradle container, no arguments), and a server build instantiates each
registered (decorated) controller exactly once — the build emits one
instantiation per list entry, in order. -/
theorem c7_pipeline_priority (ctx : InstCtx) (decorated : String → Bool)
    (controllers : List String)
    (hdec : ∀ cls ∈ controllers, decorated cls = true) :
    instPriority.find? (applicable ctx) = some (selectPath ctx) ∧
    controllerPlugin ctx decorated controllers =
      .ok (controllers.map fun cls => (cls, selectPath ctx)) := by
  constructor
  · rcases ctx with ⟨dr, orr, oc, dc⟩
    cases dr <;> cases orr <;> cases oc <;>
      rcases dc with _ | b
    all_goals try rfl
    all_goals cases b <;> rfl
  · induction controllers with
    | nil => rfl
    | cons cls rest ih =>
      have h1 : decorated cls = true := hdec cls (by simp)
      have h2 := ih (fun c hc => hdec c (by simp [hc]))
      simp [controllerPlugin, h1, h2]

/-- A context with a Smart Resolver attached and nothing else. -/
def c7ctx : InstCtx := ⟨true, false, false, none⟩

/-- Witness instantiating `c7_pipeline_priority` at two decorated
controller classes. -/
theorem c7_pipeline_priority_witness :
    (∀ cls ∈ (["A", "B"] : List String), (fun _ => true) cls = true) ∧
    (instPriority.find? (applicable c7ctx) = some (selectPath c7ctx) ∧
    controllerPlugin c7ctx (fun _ => true) ["A", "B"] =
      .ok ((["A", "B"] : List String).map fun cls =>
        (cls, selectPath c7ctx))) :=
  ⟨fun _ _ => rfl,
    c7_pipeline_priority c7ctx (fun _ => true) ["A", "B"] (fun _ _ => rfl)⟩

/-! ## Path composition (claim C9)

Embedding of `normalizePath` and `combinePaths` from
`src/decorators/prefix.decorator.ts`. -/

/-- JS `path.startsWith('/')` on a string modelled as its character
sequence. -/
def startsWithSlash (s : String) : Bool := s.data.head? = some '/'

/-- JS `path.endsWith('/')`. -/
def endsWithSlash (s : String) : Bool := s.data.getLast? = some '/'

/-- JS `path.slice(1)`. -/
def dropFirstChar (s : String) : String := String.mk s.data.tail

/-- JS `path.slice(0, -1)`. -/
def dropLastChar (s : String) : String := String.mk s.data.dropLast

/-- Embedding of `normalizePath`: an empty or bare-`"/"` path becomes
`""`; otherwise one leading `'/'` is removed if present, and then one
trailing `'/'` is removed if present. -/
def normalizePath (path : String) : String :=
  if path = "" ∨ path = "/" then ""
  else
    let n1 := if startsWithSlash path then dropFirstChar path else path
    if endsWithSlash n1 then dropLastChar n1 else n1

/-- Embedding of `combinePaths`: drop null and empty segments, normalize
each, drop segments that normalized to empty, and return `'/'` followed
by the remaining segments joined with `'/'` (or `"/"` when none
remain). -/
def combinePaths (paths : List (Option String)) : String :=
  let valid :=
    (((paths.filterMap id).filter (fun p => p.length > 0)).map
      normalizePath).filter (fun p => p.length > 0)
  if valid.length > 0 then "/" ++ String.intercalate "/" valid else "/"

/-- Stated from the claim's words: a segment trimmed of all leading and
trailing `'/'` separators. -/
def trimSlashes (s : String) : String :=
  String.mk
    (((s.data.dropWhile (fun c => c = '/')).reverse.dropWhile
      (fun c => c = '/')).reverse)

/-- Stated from the claim's words: the segments each trimmed of leading
and trailing `'/'` separators, empty segments dropped, joined by a single
`'/'` separator. -/
def claimJoin (segs : List String) : String :=
  String.intercalate "/" ((segs.map trimSlashes).filter (fun p => p ≠ ""))

/-- The amended description of a single segment's processing: one leading
and then one trailing `'/'` removed (a bare `"/"` reduces to empty). -/
def stripOneSlash (p : String) : String :=
  if p = "/" then ""
  else
    let n1 := if startsWithSlash p then dropFirstChar p else p
    if endsWithSlash n1 then dropLastChar n1 else n1

/-- The amended description of the surviving segments: non-null,
non-empty segments, each with `stripOneSlash` applied, those reduced to
empty dropped. -/
def amendedSegments (paths : List (Option String)) : List String :=
  (((paths.filterMap id).filter (fun p => p.length > 0)).map
    stripOneSlash).filter (fun p => p.length > 0)

theorem normalizePath_eq_stripOneSlash (p : String) (h : p ≠ "") :
    normalizePath p = stripOneSlash p := by
  unfold normalizePath stripOneSlash
  rcases eq_or_ne p "/" with h2 | h2 <;> simp [h, h2]

/-- C9 counterexample: combining the segments `""`, `"//api//"` and
`"users"` registers the path `"//api//users"`, which differs from the
claimed composition (all leading/trailing separators trimmed, empties
dropped, joined by single separators — `"api/users"`), and also from that
composition with a leading separator allowed (`"/api/users"`): an inner
`'/'` survives trimming and the result keeps a doubled separator. -/
theorem c9_combine_cex :
    combinePaths [some "", some "//api//", some "users"] = "//api//users" ∧
    claimJoin ["", "//api//", "users"] = "api/users" ∧
    ("//api//users" : String) ≠ "api/users" ∧
    ("//api//users" : String) ≠ "/api/users" := by
  refine ⟨by decide, by decide, by decide, by decide⟩

/-- C9 (amended): for every list of path segments, the composed route
path equals `'/'` followed by the non-null, non-empty segments each
trimmed of at most one leading and one trailing `'/'` (a bare `"/"` or a
segment reduced to empty is dropped), joined by a single `'/'`; when no
segment survives the result is the bare `"/"`. -/
theorem c9_combine_amended (paths : List (Option String)) :
    combinePaths paths = "/" ++ String.intercalate "/" (amendedSegments paths) := by
  unfold combinePaths amendedSegments
  have hmap : ((paths.filterMap id).filter (fun p => p.length > 0)).map
      normalizePath =
      ((paths.filterMap id).filter (fun p => p.length > 0)).map
      stripOneSlash := by
    apply List.map_congr_left
    intro p hp
    have hne : p ≠ "" := by
      have := (List.mem_filter.mp hp).2
      simp at this
      intro hc
      simp [hc] at this
    exact normalizePath_eq_stripOneSlash p hne
  rw [hmap]
  set l := (((paths.filterMap id).filter (fun p => p.length > 0)).map
    stripOneSlash).filter (fun p => p.length > 0) with hl
  rcases hc : l with _ | ⟨a, rest⟩
  · simp only [hc]
    decide
  · simp [hc, String.intercalate]

/-! ## Server builder (claim C10)

Embedding of `FastifyServerBuilder.build` from `src/server/builder.ts`:
the sequence of registrations it performs, driven by the builder
options, the custom plugins and the controllers list. -/

/-- The builder options consulted by `build()` (each a JS
`options?.enabled` value: `none` models an unset section). -/
structure BuilderOptions where
  corsEnabled : Option Bool := none
  errorHandlerEnabled : Option Bool := none
  swaggerEnabled : Option Bool := none
  swaggerUiEnabled : Option Bool := none

/-- One registration performed by `build()`. -/
inductive BuildStep where
  | cors
  | errorHandler
  | swagger
  | customPlugin (idx : Nat)
  | controllers (cs : List String)
  | healthRoute (method path : String)
  deriving DecidableEq, Repr

/-- The response produced by the default health-check handler. -/
structure HealthResponse where
  status : String
  timestamp : Nat
  deriving DecidableEq, Repr

/-- Embedding of the default `'/health'` handler:
`{ status: 'ok', timestamp: new Date().toISOString() }`, with the clock
value passed in. -/
def healthHandler (now : Nat) : HealthResponse :=
  { status := "ok", timestamp := now }

/-- Embedding of `FastifyServerBuilder.build`: CORS unless disabled,
error handler unless disabled, Swagger unless both sections disabled,
every custom plugin, the controller plugin when the controllers list is
non-empty, and the default health route when it is empty. -/
def buildSteps (opts : BuilderOptions) (numPlugins : Nat)
    (controllers : List String) : List BuildStep :=
  (if opts.corsEnabled ≠ some false then [BuildStep.cors] else []) ++
  (if opts.errorHandlerEnabled ≠ some false then [BuildStep.errorHandler]
    else []) ++
  (if opts.swaggerEnabled ≠ some false ∨ opts.swaggerUiEnabled ≠ some false
    then [BuildStep.swagger] else []) ++
  ((List.range numPlugins).map BuildStep.customPlugin) ++
  (if controllers.length > 0 then [BuildStep.controllers controllers]
    else []) ++
  (if controllers.length = 0 then [BuildStep.healthRoute "GET" "/health"]
    else [])

/-- C10: a build with an empty controllers list registers the default
`GET '/health'` route — whose handler responds with status `"ok"` and the
current timestamp — and a build with a non-empty controllers list does
not register that default route (for every combination of the other
builder options and custom plugins). -/
theorem c10_health_route_iff_no_controllers (opts : BuilderOptions)
    (numPlugins : Nat) (cs : List String) (now : Nat) :
    (BuildStep.healthRoute "GET" "/health" ∈ buildSteps opts numPlugins cs ↔
      cs = []) ∧
    healthHandler now = { status := "ok", timestamp := now } := by
  refine ⟨?_, rfl⟩
  unfold buildSteps
  rcases cs with _ | ⟨c, cs'⟩ <;>
    split_ifs <;>
      simp [List.mem_append, List.mem_map] <;> simp_all

end KickStart
